import Mathlib

/-!
Verification of `src/basic/missing_syscalls.py`, the build-time generator that
emits a C header mapping syscall names to architecture-specific numbers.

The script is embedded shallowly: files become lists of lines, Python's
`str.split()` / `int()` / dict semantics are modelled explicitly, exceptions
become `Option.none`, and the generated text is built by the same
concatenations that `str.format` performs on the source's templates.  The
template transcriptions are certified against verbatim copies of the source
template strings by `rfl` theorems below.
-/

set_option maxRecDepth 100000

namespace MissingSyscalls

/-- Python's `str.split()` whitespace set for ASCII input
(space, tab, newline, carriage return, vertical tab, form feed);
the tables this tool reads are ASCII, so the Unicode extras are immaterial. -/
def pyIsSpace (c : Char) : Bool :=
  c = ' ' || c = '\t' || c = '\n' || c = '\x0d' || c = '\x0b' || c = '\x0c'

/-- Helper for `pySplitWS`: accumulates the current token (reversed). -/
def splitWSAux : List Char → List Char → List String
  | [], acc => if acc = [] then [] else [⟨acc.reverse⟩]
  | c :: cs, acc =>
    if pyIsSpace c then
      (if acc = [] then splitWSAux cs [] else ⟨acc.reverse⟩ :: splitWSAux cs [])
    else splitWSAux cs (c :: acc)

/-- Python `line.split()`: split on runs of whitespace, dropping empty tokens. -/
def pySplitWS (s : String) : List String := splitWSAux s.data []

/-- Digit-string value for Python `int()`: digits with single underscores
allowed between digits (`1_0` parses, `_1`, `1_`, `1__0` do not).
`acc` is the value so far; `prev` records whether the previous character
was a digit (so an underscore or the end of input is currently legal). -/
def pyDigitsAux : Nat → Bool → List Char → Option Nat
  | acc, prev, [] => if prev then some acc else none
  | acc, prev, c :: cs =>
    if c.isDigit then pyDigitsAux (acc * 10 + (c.toNat - 48)) true cs
    else if c = '_' then (if prev then pyDigitsAux acc false cs else none)
    else none

/-- Strip leading and trailing Python whitespace. -/
def pyStripWS (cs : List Char) : List Char :=
  ((cs.dropWhile pyIsSpace).reverse.dropWhile pyIsSpace).reverse

/-- Python `int(s)` on a decimal string: optional surrounding whitespace,
optional sign, then a digit string (with the underscore rule); `none` models
the `ValueError` raised on anything else.  (Non-ASCII Unicode digits are not
modelled; the kernel syscall tables are ASCII.) -/
def pyint? (s : String) : Option Int :=
  match pyStripWS s.data with
  | '+' :: rest => (pyDigitsAux 0 false rest).map (fun n => (n : Int))
  | '-' :: rest => (pyDigitsAux 0 false rest).map (fun n => -(n : Int))
  | cs => (pyDigitsAux 0 false cs).map (fun n => (n : Int))

/-- A parsed per-architecture syscall table, in insertion order.  Python's
`dict` keeps the last value bound to a key, which `dictGet?` reproduces. -/
abbrev Table := List (String × Int)

/-- Python `d[k]` on a dict built by inserting the pairs in list order:
the value of the LAST pair whose key matches wins. -/
def dictGet? {α : Type} : List (String × α) → String → Option α
  | [], _ => none
  | (k, v) :: rest, key =>
    match dictGet? rest key with
    | some w => some w
    | none => if k = key then some v else none

/-- Python `d.get(k, dflt)`. -/
def dictGetD {α : Type} (l : List (String × α)) (key : String) (dflt : α) : α :=
  (dictGet? l key).getD dflt

/-- One step of `parse_syscall_table`'s loop body: `none` models the
`ValueError` escaping from `int(items[1])`; `some none` is a line with fewer
than two tokens (the generator yields nothing); `some (some p)` is a yielded
(symbol, number) pair. -/
def parseLine (line : String) : Option (Option (String × Int)) :=
  match pySplitWS line with
  | a :: b :: _ => (pyint? b).map (fun n => some (a, n))
  | _ => some none

/-- `parse_syscall_table` of the source, over the file's lines: for each line,
split on whitespace; if it has at least two tokens, yield
`(items[0], int(items[1]))`; `dict(...)` consumes the whole generator, so a
`ValueError` anywhere aborts the parse (`none`). -/
def parse_syscall_table : List String → Option Table
  | [] => some []
  | line :: rest =>
    match parseLine line with
    | none => none
    | some none => parse_syscall_table rest
    | some (some p) => (parse_syscall_table rest).map (fun t => p :: t)

/-- Python `s.split(sep)` for a one-character separator, over characters:
always returns at least one (possibly empty) piece. -/
def splitSepChar (sep : Char) : List Char → List (List Char)
  | [] => [[]]
  | c :: cs =>
    match splitSepChar sep cs with
    | [] => [[]]
    | t :: ts => if c = sep then [] :: t :: ts else (c :: t) :: ts

/-- The architecture key `filename.split(chr(45))[-1][:-4]` computed by
`parse_syscall_tables`: the part after the last dash, minus its last four
characters (Python slicing clamps at the empty string). -/
def archOf (filename : String) : String :=
  let lastPart := (splitSepChar '-' filename.data).getLastD []
  ⟨lastPart.take (lastPart.length - 4)⟩

/-- `parse_syscall_tables` of the source.  `fsys` models the file system:
`fsys fn = none` is a missing file (`open` raises), `some lines` its lines.
The dict comprehension binds `archOf fn` to the parsed table of `fn`;
duplicate architecture keys resolve through `dictGet?` (last file wins). -/
def parse_syscall_tables (fsys : String → Option (List String)) :
    List String → Option (List (String × Table))
  | [] => some []
  | fn :: rest =>
    match (fsys fn).bind parse_syscall_table with
    | none => none
    | some t => (parse_syscall_tables fsys rest).map (fun r => (archOf fn, t) :: r)

/-- The `SYSCALLS` list of the source. -/
def SYSCALLS : List String :=
  ["close_range", "fchmodat2", "mount_setattr", "openat2", "quotactl_fd",
   "removexattrat", "setxattrat"]

/-! ### The templates

`DEF_TEMPLATE_A/B/C` are transcribed as the concatenations `str.format`
performs on them: each `\x7bsyscall\x7d` placeholder becomes the `sym`
argument and each `\x7bnr_ARCH\x7d` placeholder becomes `nr "ARCH"`.
The transcriptions are certified against verbatim copies of the source
strings by the `..._src_eq` theorems below.  The architecture branches are
named chunks so that theorems can speak about one branch's text. -/

/-- A `#    define systemd_NR_<sym> <lit>` line (two-level indent). -/
def defLine (sym lit : String) : String :=
  "#    define systemd_NR_" ++ sym ++ " " ++ lit ++ "\n"

/-- A `#      define systemd_NR_<sym> <lit>` line (three-level indent). -/
def defLine6 (sym lit : String) : String :=
  "#      define systemd_NR_" ++ sym ++ " " ++ lit ++ "\n"

/-- The `__aarch64__` branch of `DEF_TEMPLATE_B` (table key `arm64`). -/
def bArm64 (sym lit : String) : String :=
  "#  if defined(__aarch64__)\n" ++ defLine sym lit

/-- The `__alpha__` branch (table key `alpha`). -/
def bAlpha (sym lit : String) : String :=
  "#  elif defined(__alpha__)\n" ++ defLine sym lit

/-- The `__arc__`/`__tilegx__` branch (table key `arc`). -/
def bArc (sym lit : String) : String :=
  "#  elif defined(__arc__) || defined(__tilegx__)\n" ++ defLine sym lit

/-- The `__arm__` branch (table key `arm`). -/
def bArm (sym lit : String) : String :=
  "#  elif defined(__arm__)\n" ++ defLine sym lit

/-- The `__i386__` branch (table key `i386`). -/
def bI386 (sym lit : String) : String :=
  "#  elif defined(__i386__)\n" ++ defLine sym lit

/-- The `__ia64__` branch (table key `ia64`). -/
def bIa64 (sym lit : String) : String :=
  "#  elif defined(__ia64__)\n" ++ defLine sym lit

/-- The `__loongarch_lp64` branch (table key `loongarch64`). -/
def bLoong (sym lit : String) : String :=
  "#  elif defined(__loongarch_lp64)\n" ++ defLine sym lit

/-- The `__m68k__` branch (table key `m68k`). -/
def bM68k (sym lit : String) : String :=
  "#  elif defined(__m68k__)\n" ++ defLine sym lit

/-- The MIPS o32 sub-branch (table key `mipso32`). -/
def bMipsO32 (sym lit : String) : String :=
  "#    if _MIPS_SIM == _MIPS_SIM_ABI32\n" ++ defLine6 sym lit

/-- The MIPS n32 sub-branch (table key `mips64n32`). -/
def bMipsN32 (sym lit : String) : String :=
  "#    elif _MIPS_SIM == _MIPS_SIM_NABI32\n" ++ defLine6 sym lit

/-- The MIPS 64 sub-branch (table key `mips64`). -/
def bMips64 (sym lit : String) : String :=
  "#    elif _MIPS_SIM == _MIPS_SIM_ABI64\n" ++ defLine6 sym lit

/-- The whole `_MIPS_SIM` branch. -/
def bMips (sym a b c : String) : String :=
  "#  elif defined(_MIPS_SIM)\n" ++
    (bMipsO32 sym a ++ (bMipsN32 sym b ++ (bMips64 sym c ++
      "#    else\n#      error \"Unknown MIPS ABI\"\n#    endif\n")))

/-- The `__hppa__` branch (table key `parisc`). -/
def bParisc (sym lit : String) : String :=
  "#  elif defined(__hppa__)\n" ++ defLine sym lit

/-- The `__powerpc__` branch (table key `powerpc`). -/
def bPpc (sym lit : String) : String :=
  "#  elif defined(__powerpc__)\n" ++ defLine sym lit

/-- The RISC-V 32 sub-branch (table key `riscv32`). -/
def bRiscv32 (sym lit : String) : String :=
  "#    if __riscv_xlen == 32\n" ++ defLine6 sym lit

/-- The RISC-V 64 sub-branch (table key `riscv64`). -/
def bRiscv64 (sym lit : String) : String :=
  "#    elif __riscv_xlen == 64\n" ++ defLine6 sym lit

/-- The whole `__riscv` branch. -/
def bRiscv (sym a b : String) : String :=
  "#  elif defined(__riscv)\n" ++
    (bRiscv32 sym a ++ (bRiscv64 sym b ++
      "#    else\n#      error \"Unknown RISC-V ABI\"\n#    endif\n"))

/-- The `__s390__` branch (table key `s390`). -/
def bS390 (sym lit : String) : String :=
  "#  elif defined(__s390__)\n" ++ defLine sym lit

/-- The `__sparc__` branch (table key `sparc`). -/
def bSparc (sym lit : String) : String :=
  "#  elif defined(__sparc__)\n" ++ defLine sym lit

/-- The `__x86_64__` branch (table key `x86_64`), with its x32 sub-case. -/
def bX8664 (sym lit : String) : String :=
  "#  elif defined(__x86_64__)\n#    if defined(__ILP32__)\n" ++
    "#      define systemd_NR_" ++ sym ++ " (" ++ lit ++
    " | /* __X32_SYSCALL_BIT */ 0x40000000)\n#    else\n" ++
    defLine6 sym lit ++ "#    endif\n"

/-- The final `!defined(missing_arch_template)` branch around the text the
`%s` hole receives, and the closing `#  endif`. -/
def bFallbackChunk (fb : String) : String :=
  "#  elif !defined(missing_arch_template)\n" ++ fb ++ "\n#  endif\n"

/-- `DEF_TEMPLATE_B` as the function `str.format` (after `%`-substituting
`fb` for the `%s` hole) computes: `nr` supplies, per architecture key, the
text standing where `\x7bnr_ARCH\x7d` stood. -/
def defTemplateB (fb sym : String) (nr : String → String) : String :=
  bArm64 sym (nr "arm64") ++ (bAlpha sym (nr "alpha") ++ (bArc sym (nr "arc") ++
    (bArm sym (nr "arm") ++ (bI386 sym (nr "i386") ++ (bIa64 sym (nr "ia64") ++
    (bLoong sym (nr "loongarch64") ++ (bM68k sym (nr "m68k") ++
    (bMips sym (nr "mipso32") (nr "mips64n32") (nr "mips64") ++
    (bParisc sym (nr "parisc") ++ (bPpc sym (nr "powerpc") ++
    (bRiscv sym (nr "riscv32") (nr "riscv64") ++ (bS390 sym (nr "s390") ++
    (bSparc sym (nr "sparc") ++ (bX8664 sym (nr "x86_64") ++
    bFallbackChunk fb))))))))))))))

/-- `DEF_TEMPLATE_A` as the function `str.format` computes. -/
def defTemplateA (sym : String) : String :=
  "\n#ifndef __IGNORE_" ++ sym ++ "\n"

/-- The opening of `DEF_TEMPLATE_C`: the comment and the
`defined __NR_x && __NR_x >= 0` test. -/
def cIntro (sym : String) : String :=
  "\n/* may be an (invalid) negative number due to libseccomp, see PR 13319 */\n" ++
  "#  if defined __NR_" ++ sym ++ " && __NR_" ++ sym ++ " >= 0\n"

/-- The reconciliation of `DEF_TEMPLATE_C`: the `assert_cc` guarded by
`defined systemd_NR_x`. -/
def cAssertChunk (sym : String) : String :=
  "#    if defined systemd_NR_" ++ sym ++ "\n" ++
  "assert_cc(__NR_" ++ sym ++ " == systemd_NR_" ++ sym ++ ");\n" ++
  "#    endif\n"

/-- The `#else` arm of `DEF_TEMPLATE_C`: undefine a negative `__NR_x`, then
define it from `systemd_NR_x` only when that is defined and non-negative. -/
def cElseChunk (sym : String) : String :=
  "#  else\n" ++
  "#    if defined __NR_" ++ sym ++ "\n" ++
  "#      undef __NR_" ++ sym ++ "\n" ++
  "#    endif\n" ++
  "#    if defined systemd_NR_" ++ sym ++ " && systemd_NR_" ++ sym ++ " >= 0\n" ++
  "#      define __NR_" ++ sym ++ " systemd_NR_" ++ sym ++ "\n" ++
  "#    endif\n#  endif\n#endif"

/-- `DEF_TEMPLATE_C` as the function `str.format` computes. -/
def defTemplateC (sym : String) : String :=
  cIntro sym ++ (cAssertChunk sym ++ cElseChunk sym)

/-- The warning line the source's `%` substitution puts into the fallback
branch of `DEF_TEMPLATE`, with its own `\x7bsyscall\x7d` placeholder filled. -/
def warnLine (sym : String) : String :=
  "#    warning \"" ++ sym ++ "() syscall number is unknown for your architecture\""

/-- `DEF_TEMPLATE` = `DEF_TEMPLATE_A + DEF_TEMPLATE_B % warning + DEF_TEMPLATE_C`,
as the function `str.format` computes. -/
def defTemplate (sym : String) (nr : String → String) : String :=
  defTemplateA sym ++ defTemplateB (warnLine sym) sym nr ++ defTemplateC sym

/-! ### Verbatim copies of the source template strings, certifying the
transcriptions above: substituting each placeholder by its own spelling
must reproduce the source text exactly. -/

/-- Verbatim `DEF_TEMPLATE_A` from the source. -/
def DEF_TEMPLATE_A_src : String := "\n#ifndef __IGNORE_{syscall}\n"

/-- Verbatim `DEF_TEMPLATE_B` from the source. -/
def DEF_TEMPLATE_B_src : String := "#  if defined(__aarch64__)\n#    define systemd_NR_{syscall} {nr_arm64}\n#  elif defined(__alpha__)\n#    define systemd_NR_{syscall} {nr_alpha}\n#  elif defined(__arc__) || defined(__tilegx__)\n#    define systemd_NR_{syscall} {nr_arc}\n#  elif defined(__arm__)\n#    define systemd_NR_{syscall} {nr_arm}\n#  elif defined(__i386__)\n#    define systemd_NR_{syscall} {nr_i386}\n#  elif defined(__ia64__)\n#    define systemd_NR_{syscall} {nr_ia64}\n#  elif defined(__loongarch_lp64)\n#    define systemd_NR_{syscall} {nr_loongarch64}\n#  elif defined(__m68k__)\n#    define systemd_NR_{syscall} {nr_m68k}\n#  elif defined(_MIPS_SIM)\n#    if _MIPS_SIM == _MIPS_SIM_ABI32\n#      define systemd_NR_{syscall} {nr_mipso32}\n#    elif _MIPS_SIM == _MIPS_SIM_NABI32\n#      define systemd_NR_{syscall} {nr_mips64n32}\n#    elif _MIPS_SIM == _MIPS_SIM_ABI64\n#      define systemd_NR_{syscall} {nr_mips64}\n#    else\n#      error \"Unknown MIPS ABI\"\n#    endif\n#  elif defined(__hppa__)\n#    define systemd_NR_{syscall} {nr_parisc}\n#  elif defined(__powerpc__)\n#    define systemd_NR_{syscall} {nr_powerpc}\n#  elif defined(__riscv)\n#    if __riscv_xlen == 32\n#      define systemd_NR_{syscall} {nr_riscv32}\n#    elif __riscv_xlen == 64\n#      define systemd_NR_{syscall} {nr_riscv64}\n#    else\n#      error \"Unknown RISC-V ABI\"\n#    endif\n#  elif defined(__s390__)\n#    define systemd_NR_{syscall} {nr_s390}\n#  elif defined(__sparc__)\n#    define systemd_NR_{syscall} {nr_sparc}\n#  elif defined(__x86_64__)\n#    if defined(__ILP32__)\n#      define systemd_NR_{syscall} ({nr_x86_64} | /* __X32_SYSCALL_BIT */ 0x40000000)\n#    else\n#      define systemd_NR_{syscall} {nr_x86_64}\n#    endif\n#  elif !defined(missing_arch_template)\n%s\n#  endif\n"

/-- Verbatim `DEF_TEMPLATE_C` from the source. -/
def DEF_TEMPLATE_C_src : String := "\n/* may be an (invalid) negative number due to libseccomp, see PR 13319 */\n#  if defined __NR_{syscall} && __NR_{syscall} >= 0\n#    if defined systemd_NR_{syscall}\nassert_cc(__NR_{syscall} == systemd_NR_{syscall});\n#    endif\n#  else\n#    if defined __NR_{syscall}\n#      undef __NR_{syscall}\n#    endif\n#    if defined systemd_NR_{syscall} && systemd_NR_{syscall} >= 0\n#      define __NR_{syscall} systemd_NR_{syscall}\n#    endif\n#  endif\n#endif"

/-- The placeholder text standing in the `nr_ARCH` slot of the raw template. -/
def nrHole (a : String) : String := "\x7bnr_" ++ a ++ "\x7d"

/-! ### `ARCH_CHECK`, derived from the verbatim `DEF_TEMPLATE_B` exactly as
the source derives it (splitlines, drop the define lines, rejoin,
`%`-substitute the warning). -/

/-- Whether `n` is an initial run of `h`. -/
def listLeads : List Char → List Char → Bool
  | [], _ => true
  | _ :: _, [] => false
  | a :: as, b :: bs => if a = b then listLeads as bs else false

/-- Whether `n` occurs contiguously inside `h` (Python `n in h`). -/
def listWithin (n : List Char) : List Char → Bool
  | [] => listLeads n []
  | b :: bs => listLeads n (b :: bs) || listWithin n bs

/-- Python `needle in hay` on strings. -/
def strHasSub (hay needle : String) : Bool := listWithin needle.data hay.data

/-- Python `s.splitlines()` for text whose only line break is a newline
character (true of `DEF_TEMPLATE_B`): like splitting on the newline, but a
trailing newline produces no final empty line. -/
def pySplitlines (s : String) : List String :=
  let parts := s.splitOn "\n"
  if s = "" then [] else if parts.getLastD "" = "" then parts.dropLast else parts

/-- Python `template % arg` for a format string whose only directive is
`%s`: substitute `arg` for each `%s`. -/
def percentS : List Char → List Char → List Char
  | [], _ => []
  | '%' :: 's' :: rest, arg => arg ++ percentS rest arg
  | c :: rest, arg => c :: percentS rest arg

/-- `percentS` on strings. -/
def pyPercentS (s arg : String) : String := ⟨percentS s.data arg.data⟩

/-- The note prepended to `ARCH_CHECK` in the source. -/
def archNote : String := "/* Note: if this code looks strange, this is because it is derived from the same\n * template as the per-syscall blocks below. */\n"

/-- The two lines substituted for `%s` in `ARCH_CHECK`. -/
def archFallbackText : String := "#    warning \"Current architecture is missing from the template\"\n#    define missing_arch_template 1"

/-- `ARCH_CHECK` of the source: the note, then `DEF_TEMPLATE_B` minus every
line containing ` define `, rejoined and `%`-substituted. -/
def ARCH_CHECK : String :=
  archNote ++
    pyPercentS
      (String.intercalate "\n"
        ((pySplitlines DEF_TEMPLATE_B_src).filter (fun l => ! strHasSub l " define ")))
      archFallbackText

/-! ### The emitter -/

/-- The architecture keys `DEF_TEMPLATE` reads: `str.format` raises a
`KeyError`, aborting the run, when `tables` lacks any of them. -/
def requiredArchs : List String :=
  ["arm64", "alpha", "arc", "arm", "i386", "ia64", "loongarch64", "m68k",
   "mipso32", "mips64n32", "mips64", "parisc", "powerpc", "riscv32",
   "riscv64", "s390", "sparc", "x86_64"]

/-- The table of one architecture inside the parsed tables (only ever used
under the guard that the architecture is present). -/
def archTable (tables : List (String × Table)) (a : String) : Table :=
  (dictGet? tables a).getD []

/-- The text standing in the `nr_ARCH` slot for `sym`:
`str(t.get(syscall, -1))` of the source's `mappings`. -/
def nrLit (tables : List (String × Table)) (sym a : String) : String :=
  toString (dictGetD (archTable tables a) sym (-1))

/-- `print_syscall_def` of the source: format `DEF_TEMPLATE` with the
per-architecture numbers (default `-1`) and print it, which appends one
newline.  `none` models the uncaught `KeyError` when some architecture the
template reads has no table. -/
def print_syscall_def (sym : String) (tables : List (String × Table)) :
    Option String :=
  if requiredArchs.all (fun a => (dictGet? tables a).isSome) then
    some (defTemplate sym (nrLit tables sym) ++ "\n")
  else none

/-- The loop of `print_syscall_defs`: text written so far and whether all
blocks were emitted (on a failure the loop stops with the text written up to
that point, as the exception propagates). -/
def emitBlocks (syscalls : List String) (tables : List (String × Table)) :
    String × Bool :=
  match syscalls with
  | [] => ("", true)
  | s :: rest =>
    match print_syscall_def s tables with
    | none => ("", false)
    | some b =>
      let (more, ok) := emitBlocks rest tables
      (b ++ more, ok)

/-- The generated-file banner printed first by `print_syscall_defs`
(each `print` call appends one newline). -/
def headerText : String :=
  "/* SPDX-License-Identifier: LGPL-2.1-or-later\n * This file is generated by src/basic/missing_syscalls.py. Do not edit!\n *\n * Use " ++
  (Char.ofNat 39).toString ++ "ninja -C build update-syscall-tables" ++
  (Char.ofNat 39).toString ++ " to download new syscall tables,\n * and " ++
  (Char.ofNat 39).toString ++ "ninja -C build update-syscall-header" ++
  (Char.ofNat 39).toString ++ " to regenerate this file.\n */\n#pragma once\n"

/-- `print_syscall_defs` of the source: the text written to the output file
and whether the run completed. -/
def print_syscall_defs (syscalls : List String)
    (tables : List (String × Table)) : String × Bool :=
  let (blocks, ok) := emitBlocks syscalls tables
  (headerText ++ "\n" ++ ARCH_CHECK ++ "\n" ++ blocks, ok)

/-- Observable outcome of one run: the final contents of the output file
(`none` would mean it was never created) and whether the process exited 0. -/
structure RunOutcome where
  outFileContents : Option String
  exitOk : Bool
deriving DecidableEq, Repr

/-- The `__main__` block: `open(output_file, 'wt')` creates or truncates the
output file BEFORE any table is parsed; a parse failure then propagates
uncaught, so the process dies non-zero with the output file empty. -/
def runMain (fsys : String → Option (List String)) (_outputFile : String)
    (archFiles : List String) : RunOutcome :=
  match parse_syscall_tables fsys archFiles with
  | none => ⟨some "", false⟩
  | some tables =>
    let (text, ok) := print_syscall_defs SYSCALLS tables
    ⟨some text, ok⟩

/-! ### Compile-time semantics of the emitted `DEF_TEMPLATE_C` block

The generator emits fixed conditional text; these functions model the C
preprocessor evaluating that text, as a function of whether (and with what
value) `__NR_x` was already defined and whether `systemd_NR_x` got defined. -/

/-- The `#else` arm of the emitted block: `__NR_x` is (re)defined from
`systemd_NR_x` only when the latter exists and is non-negative. -/
def templateCFallback (snr : Option Int) : Option Int :=
  match snr with
  | some w => if 0 ≤ w then some w else none
  | none => none

/-- The whole emitted block: a pre-existing non-negative `__NR_x` is kept
(and reconciled by `assert_cc`); otherwise it is undefined and possibly
re-defined from a non-negative `systemd_NR_x`.  The result is the definition
of `__NR_x` after the block. -/
def templateCOutcome (nr snr : Option Int) : Option Int :=
  match nr with
  | some v => if 0 ≤ v then some v else templateCFallback snr
  | none => templateCFallback snr

/-- Whether the `assert_cc(__NR_x == systemd_NR_x)` line is reached:
exactly when `__NR_x` pre-exists non-negative and `systemd_NR_x` exists. -/
def templateCAssertActive (nr snr : Option Int) : Bool :=
  (match nr with
   | some v => decide (0 ≤ v)
   | none => false) && snr.isSome

/-! ### Statement vocabulary -/

/-- `needle` occurs contiguously inside `hay`. -/
def sOccurs (needle hay : String) : Prop :=
  ∃ p q : String, hay = p ++ needle ++ q

/-- The text of the branch of a symbol's conditional block that belongs to a
given architecture-table key, with `lit` standing where the number goes;
`none` for a key no branch draws from. -/
def archNeedle (arch sym lit : String) : Option String :=
  if arch = "arm64" then some (bArm64 sym lit)
  else if arch = "alpha" then some (bAlpha sym lit)
  else if arch = "arc" then some (bArc sym lit)
  else if arch = "arm" then some (bArm sym lit)
  else if arch = "i386" then some (bI386 sym lit)
  else if arch = "ia64" then some (bIa64 sym lit)
  else if arch = "loongarch64" then some (bLoong sym lit)
  else if arch = "m68k" then some (bM68k sym lit)
  else if arch = "mipso32" then some (bMipsO32 sym lit)
  else if arch = "mips64n32" then some (bMipsN32 sym lit)
  else if arch = "mips64" then some (bMips64 sym lit)
  else if arch = "parisc" then some (bParisc sym lit)
  else if arch = "powerpc" then some (bPpc sym lit)
  else if arch = "riscv32" then some (bRiscv32 sym lit)
  else if arch = "riscv64" then some (bRiscv64 sym lit)
  else if arch = "s390" then some (bS390 sym lit)
  else if arch = "sparc" then some (bSparc sym lit)
  else if arch = "x86_64" then some (bX8664 sym lit)
  else none

/-- A line the loader must choke on: at least two whitespace-separated
tokens, the second of which `int()` rejects. -/
def badSecondTok (line : String) : Prop :=
  ∃ a b rest, pySplitWS line = a :: b :: rest ∧ pyint? b = none

/-- Boolean form of `badSecondTok`, for deciding concrete lines. -/
def badSecondTokB (line : String) : Bool :=
  match pySplitWS line with
  | _ :: b :: _ => (pyint? b).isNone
  | _ => false

/-- Every line of the file parses cleanly. -/
def goodLines (lines : List String) : Prop := ∀ l ∈ lines, ¬ badSecondTok l

/-- Modelled from the spec: "only lines with at least 2 tokens are
considered, first token is the symbol, second token is parsed as an integer
syscall number" — the entry one line contributes. -/
def specLoaderEntry (line : String) : Option (String × Int) :=
  match pySplitWS line with
  | a :: b :: _ => (pyint? b).map (fun n => (a, n))
  | _ => none

/-- Modelled from the spec: the table of one file is exactly the entries of
its qualifying lines, lines with fewer than two tokens contributing
nothing. -/
def specLoaderTable (lines : List String) : Table :=
  lines.filterMap specLoaderEntry

/-! ### Concrete fixtures used by the witness theorems -/

/-- Tables giving every architecture the template reads the same
one-entry table. -/
def wTables (sym : String) (n : Int) : List (String × Table) :=
  requiredArchs.map (fun a => (a, [(sym, n)]))

/-- Tables for the two-architecture scenario: `alpha` maps `X` to 10,
`sparc` maps `X` to 20, every other architecture lacks `X`. -/
def wTablesTwo : List (String × Table) :=
  requiredArchs.map (fun a =>
    (a, if a = "alpha" then [("X", (10 : Int))]
        else if a = "sparc" then [("X", (20 : Int))]
        else [("read", (0 : Int))]))

/-- A file system with a single well-formed table file. -/
def wFsys : String → Option (List String) :=
  fun fn => if fn = "syscalls-alpha.txt" then some ["read 0", "openat2 437"] else none

/-- A file system whose one table file has a non-integer second token. -/
def wFsysBad : String → Option (List String) :=
  fun fn => if fn = "syscalls-alpha.txt" then some ["read zero"] else none

/-- Two table files whose names derive the same architecture key `x`. -/
def wFsysDup : String → Option (List String) :=
  fun fn =>
    if fn = "a-x.txt" then some ["read 0"]
    else if fn = "b-x.txt" then some ["read 1"] else none

/-! ## Theorems -/

/-- The transcription `defTemplateA` reproduces the source string verbatim. -/
theorem defTemplateA_src_eq : defTemplateA "{syscall}" = DEF_TEMPLATE_A_src := rfl

/-- The transcription `defTemplateB` reproduces the source string verbatim,
holes in place, which certifies both the surrounding text and which
architecture key each branch draws from. -/
theorem defTemplateB_src_eq :
    defTemplateB "%s" "{syscall}" nrHole = DEF_TEMPLATE_B_src := rfl

/-- The transcription `defTemplateC` reproduces the source string verbatim. -/
theorem defTemplateC_src_eq : defTemplateC "{syscall}" = DEF_TEMPLATE_C_src := rfl

/-! ### Occurrence machinery -/

/-- A string occurs in itself. -/
theorem sOccurs_self (s : String) : sOccurs s s :=
  ⟨"", "", by rw [String.append_empty, String.empty_append]⟩

/-- Occurrence is stable under appending on the right. -/
theorem sOccurs_append_left {n h : String} (t : String) (hh : sOccurs n h) :
    sOccurs n (h ++ t) := by
  obtain ⟨p, q, rfl⟩ := hh
  exact ⟨p, q ++ t, by rw [String.append_assoc (p ++ n) q t]⟩

/-- Occurrence is stable under appending on the left. -/
theorem sOccurs_append_right {n h : String} (t : String) (hh : sOccurs n h) :
    sOccurs n (t ++ h) := by
  obtain ⟨p, q, rfl⟩ := hh
  refine ⟨t ++ p, q, ?_⟩
  rw [← String.append_assoc t (p ++ n) q, ← String.append_assoc t p n]

/-- A string occurs at the head of an append. -/
theorem sOcc_head (n t : String) : sOccurs n (n ++ t) :=
  sOccurs_append_left t (sOccurs_self n)

/-- The aarch64 branch occurs in the formatted `DEF_TEMPLATE_B`. -/
theorem occB_arm64 (fb sym : String) (nr : String → String) :
    sOccurs (bArm64 sym (nr "arm64")) (defTemplateB fb sym nr) := by
  unfold defTemplateB
  exact sOcc_head _ _

/-- The alpha branch occurs in the formatted `DEF_TEMPLATE_B`. -/
theorem occB_alpha (fb sym : String) (nr : String → String) :
    sOccurs (bAlpha sym (nr "alpha")) (defTemplateB fb sym nr) := by
  unfold defTemplateB
  exact sOccurs_append_right _ (sOcc_head _ _)

/-- The arc branch occurs in the formatted `DEF_TEMPLATE_B`. -/
theorem occB_arc (fb sym : String) (nr : String → String) :
    sOccurs (bArc sym (nr "arc")) (defTemplateB fb sym nr) := by
  unfold defTemplateB
  exact sOccurs_append_right _ (sOccurs_append_right _ (sOcc_head _ _))

/-- The arm branch occurs in the formatted `DEF_TEMPLATE_B`. -/
theorem occB_arm (fb sym : String) (nr : String → String) :
    sOccurs (bArm sym (nr "arm")) (defTemplateB fb sym nr) := by
  unfold defTemplateB
  exact sOccurs_append_right _ (sOccurs_append_right _ (sOccurs_append_right _
    (sOcc_head _ _)))

/-- The i386 branch occurs in the formatted `DEF_TEMPLATE_B`. -/
theorem occB_i386 (fb sym : String) (nr : String → String) :
    sOccurs (bI386 sym (nr "i386")) (defTemplateB fb sym nr) := by
  unfold defTemplateB
  exact sOccurs_append_right _ (sOccurs_append_right _ (sOccurs_append_right _
    (sOccurs_append_right _ (sOcc_head _ _))))

/-- The ia64 branch occurs in the formatted `DEF_TEMPLATE_B`. -/
theorem occB_ia64 (fb sym : String) (nr : String → String) :
    sOccurs (bIa64 sym (nr "ia64")) (defTemplateB fb sym nr) := by
  unfold defTemplateB
  exact sOccurs_append_right _ (sOccurs_append_right _ (sOccurs_append_right _
    (sOccurs_append_right _ (sOccurs_append_right _ (sOcc_head _ _)))))

/-- The loongarch branch occurs in the formatted `DEF_TEMPLATE_B`. -/
theorem occB_loong (fb sym : String) (nr : String → String) :
    sOccurs (bLoong sym (nr "loongarch64")) (defTemplateB fb sym nr) := by
  unfold defTemplateB
  exact sOccurs_append_right _ (sOccurs_append_right _ (sOccurs_append_right _
    (sOccurs_append_right _ (sOccurs_append_right _ (sOccurs_append_right _
    (sOcc_head _ _))))))

/-- The m68k branch occurs in the formatted `DEF_TEMPLATE_B`. -/
theorem occB_m68k (fb sym : String) (nr : String → String) :
    sOccurs (bM68k sym (nr "m68k")) (defTemplateB fb sym nr) := by
  unfold defTemplateB
  exact sOccurs_append_right _ (sOccurs_append_right _ (sOccurs_append_right _
    (sOccurs_append_right _ (sOccurs_append_right _ (sOccurs_append_right _
    (sOccurs_append_right _ (sOcc_head _ _)))))))

/-- The MIPS o32 sub-branch occurs in the formatted `DEF_TEMPLATE_B`. -/
theorem occB_mipso32 (fb sym : String) (nr : String → String) :
    sOccurs (bMipsO32 sym (nr "mipso32")) (defTemplateB fb sym nr) := by
  unfold defTemplateB bMips
  exact sOccurs_append_right _ (sOccurs_append_right _ (sOccurs_append_right _
    (sOccurs_append_right _ (sOccurs_append_right _ (sOccurs_append_right _
    (sOccurs_append_right _ (sOccurs_append_right _ (sOccurs_append_left _
    (sOccurs_append_right _ (sOcc_head _ _))))))))))

/-- The MIPS n32 sub-branch occurs in the formatted `DEF_TEMPLATE_B`. -/
theorem occB_mips64n32 (fb sym : String) (nr : String → String) :
    sOccurs (bMipsN32 sym (nr "mips64n32")) (defTemplateB fb sym nr) := by
  unfold defTemplateB bMips
  exact sOccurs_append_right _ (sOccurs_append_right _ (sOccurs_append_right _
    (sOccurs_append_right _ (sOccurs_append_right _ (sOccurs_append_right _
    (sOccurs_append_right _ (sOccurs_append_right _ (sOccurs_append_left _
    (sOccurs_append_right _ (sOccurs_append_right _ (sOcc_head _ _)))))))))))

/-- The MIPS 64 sub-branch occurs in the formatted `DEF_TEMPLATE_B`. -/
theorem occB_mips64 (fb sym : String) (nr : String → String) :
    sOccurs (bMips64 sym (nr "mips64")) (defTemplateB fb sym nr) := by
  unfold defTemplateB bMips
  exact sOccurs_append_right _ (sOccurs_append_right _ (sOccurs_append_right _
    (sOccurs_append_right _ (sOccurs_append_right _ (sOccurs_append_right _
    (sOccurs_append_right _ (sOccurs_append_right _ (sOccurs_append_left _
    (sOccurs_append_right _ (sOccurs_append_right _ (sOccurs_append_right _
    (sOcc_head _ _))))))))))))

/-- The hppa branch occurs in the formatted `DEF_TEMPLATE_B`. -/
theorem occB_parisc (fb sym : String) (nr : String → String) :
    sOccurs (bParisc sym (nr "parisc")) (defTemplateB fb sym nr) := by
  unfold defTemplateB
  exact sOccurs_append_right _ (sOccurs_append_right _ (sOccurs_append_right _
    (sOccurs_append_right _ (sOccurs_append_right _ (sOccurs_append_right _
    (sOccurs_append_right _ (sOccurs_append_right _ (sOccurs_append_right _
    (sOcc_head _ _)))))))))

/-- The powerpc branch occurs in the formatted `DEF_TEMPLATE_B`. -/
theorem occB_powerpc (fb sym : String) (nr : String → String) :
    sOccurs (bPpc sym (nr "powerpc")) (defTemplateB fb sym nr) := by
  unfold defTemplateB
  exact sOccurs_append_right _ (sOccurs_append_right _ (sOccurs_append_right _
    (sOccurs_append_right _ (sOccurs_append_right _ (sOccurs_append_right _
    (sOccurs_append_right _ (sOccurs_append_right _ (sOccurs_append_right _
    (sOccurs_append_right _ (sOcc_head _ _))))))))))

/-- The RISC-V 32 sub-branch occurs in the formatted `DEF_TEMPLATE_B`. -/
theorem occB_riscv32 (fb sym : String) (nr : String → String) :
    sOccurs (bRiscv32 sym (nr "riscv32")) (defTemplateB fb sym nr) := by
  unfold defTemplateB bRiscv
  exact sOccurs_append_right _ (sOccurs_append_right _ (sOccurs_append_right _
    (sOccurs_append_right _ (sOccurs_append_right _ (sOccurs_append_right _
    (sOccurs_append_right _ (sOccurs_append_right _ (sOccurs_append_right _
    (sOccurs_append_right _ (sOccurs_append_right _ (sOccurs_append_left _
    (sOccurs_append_right _ (sOcc_head _ _)))))))))))))

/-- The RISC-V 64 sub-branch occurs in the formatted `DEF_TEMPLATE_B`. -/
theorem occB_riscv64 (fb sym : String) (nr : String → String) :
    sOccurs (bRiscv64 sym (nr "riscv64")) (defTemplateB fb sym nr) := by
  unfold defTemplateB bRiscv
  exact sOccurs_append_right _ (sOccurs_append_right _ (sOccurs_append_right _
    (sOccurs_append_right _ (sOccurs_append_right _ (sOccurs_append_right _
    (sOccurs_append_right _ (sOccurs_append_right _ (sOccurs_append_right _
    (sOccurs_append_right _ (sOccurs_append_right _ (sOccurs_append_left _
    (sOccurs_append_right _ (sOccurs_append_right _ (sOcc_head _ _))))))))))))))

/-- The s390 branch occurs in the formatted `DEF_TEMPLATE_B`. -/
theorem occB_s390 (fb sym : String) (nr : String → String) :
    sOccurs (bS390 sym (nr "s390")) (defTemplateB fb sym nr) := by
  unfold defTemplateB
  exact sOccurs_append_right _ (sOccurs_append_right _ (sOccurs_append_right _
    (sOccurs_append_right _ (sOccurs_append_right _ (sOccurs_append_right _
    (sOccurs_append_right _ (sOccurs_append_right _ (sOccurs_append_right _
    (sOccurs_append_right _ (sOccurs_append_right _ (sOccurs_append_right _
    (sOcc_head _ _))))))))))))

/-- The sparc branch occurs in the formatted `DEF_TEMPLATE_B`. -/
theorem occB_sparc (fb sym : String) (nr : String → String) :
    sOccurs (bSparc sym (nr "sparc")) (defTemplateB fb sym nr) := by
  unfold defTemplateB
  exact sOccurs_append_right _ (sOccurs_append_right _ (sOccurs_append_right _
    (sOccurs_append_right _ (sOccurs_append_right _ (sOccurs_append_right _
    (sOccurs_append_right _ (sOccurs_append_right _ (sOccurs_append_right _
    (sOccurs_append_right _ (sOccurs_append_right _ (sOccurs_append_right _
    (sOccurs_append_right _ (sOcc_head _ _)))))))))))))

/-- The x86_64 branch occurs in the formatted `DEF_TEMPLATE_B`. -/
theorem occB_x8664 (fb sym : String) (nr : String → String) :
    sOccurs (bX8664 sym (nr "x86_64")) (defTemplateB fb sym nr) := by
  unfold defTemplateB
  exact sOccurs_append_right _ (sOccurs_append_right _ (sOccurs_append_right _
    (sOccurs_append_right _ (sOccurs_append_right _ (sOccurs_append_right _
    (sOccurs_append_right _ (sOccurs_append_right _ (sOccurs_append_right _
    (sOccurs_append_right _ (sOccurs_append_right _ (sOccurs_append_right _
    (sOccurs_append_right _ (sOccurs_append_right _ (sOcc_head _ _))))))))))))))

/-- The fallback chunk occurs in the formatted `DEF_TEMPLATE_B`. -/
theorem occB_fallback (fb sym : String) (nr : String → String) :
    sOccurs (bFallbackChunk fb) (defTemplateB fb sym nr) := by
  unfold defTemplateB
  exact sOccurs_append_right _ (sOccurs_append_right _ (sOccurs_append_right _
    (sOccurs_append_right _ (sOccurs_append_right _ (sOccurs_append_right _
    (sOccurs_append_right _ (sOccurs_append_right _ (sOccurs_append_right _
    (sOccurs_append_right _ (sOccurs_append_right _ (sOccurs_append_right _
    (sOccurs_append_right _ (sOccurs_append_right _ (sOccurs_append_right _
    (sOccurs_self _)))))))))))))))

/-- Dispatcher: the branch text `archNeedle` names for an architecture key
occurs in the formatted `DEF_TEMPLATE_B` whenever the key's slot holds the
named literal. -/
theorem archNeedle_occurs (fb sym lit b arch : String) (nr : String → String)
    (hn : archNeedle arch sym lit = some b) (hv : nr arch = lit) :
    sOccurs b (defTemplateB fb sym nr) := by
  unfold archNeedle at hn
  by_cases e1 : arch = "arm64"
  · rw [if_pos e1] at hn; cases hn; subst e1; rw [← hv]; exact occB_arm64 fb sym nr
  rw [if_neg e1] at hn
  by_cases e2 : arch = "alpha"
  · rw [if_pos e2] at hn; cases hn; subst e2; rw [← hv]; exact occB_alpha fb sym nr
  rw [if_neg e2] at hn
  by_cases e3 : arch = "arc"
  · rw [if_pos e3] at hn; cases hn; subst e3; rw [← hv]; exact occB_arc fb sym nr
  rw [if_neg e3] at hn
  by_cases e4 : arch = "arm"
  · rw [if_pos e4] at hn; cases hn; subst e4; rw [← hv]; exact occB_arm fb sym nr
  rw [if_neg e4] at hn
  by_cases e5 : arch = "i386"
  · rw [if_pos e5] at hn; cases hn; subst e5; rw [← hv]; exact occB_i386 fb sym nr
  rw [if_neg e5] at hn
  by_cases e6 : arch = "ia64"
  · rw [if_pos e6] at hn; cases hn; subst e6; rw [← hv]; exact occB_ia64 fb sym nr
  rw [if_neg e6] at hn
  by_cases e7 : arch = "loongarch64"
  · rw [if_pos e7] at hn; cases hn; subst e7; rw [← hv]; exact occB_loong fb sym nr
  rw [if_neg e7] at hn
  by_cases e8 : arch = "m68k"
  · rw [if_pos e8] at hn; cases hn; subst e8; rw [← hv]; exact occB_m68k fb sym nr
  rw [if_neg e8] at hn
  by_cases e9 : arch = "mipso32"
  · rw [if_pos e9] at hn; cases hn; subst e9; rw [← hv]; exact occB_mipso32 fb sym nr
  rw [if_neg e9] at hn
  by_cases e10 : arch = "mips64n32"
  · rw [if_pos e10] at hn; cases hn; subst e10; rw [← hv]
    exact occB_mips64n32 fb sym nr
  rw [if_neg e10] at hn
  by_cases e11 : arch = "mips64"
  · rw [if_pos e11] at hn; cases hn; subst e11; rw [← hv]; exact occB_mips64 fb sym nr
  rw [if_neg e11] at hn
  by_cases e12 : arch = "parisc"
  · rw [if_pos e12] at hn; cases hn; subst e12; rw [← hv]; exact occB_parisc fb sym nr
  rw [if_neg e12] at hn
  by_cases e13 : arch = "powerpc"
  · rw [if_pos e13] at hn; cases hn; subst e13; rw [← hv]; exact occB_powerpc fb sym nr
  rw [if_neg e13] at hn
  by_cases e14 : arch = "riscv32"
  · rw [if_pos e14] at hn; cases hn; subst e14; rw [← hv]; exact occB_riscv32 fb sym nr
  rw [if_neg e14] at hn
  by_cases e15 : arch = "riscv64"
  · rw [if_pos e15] at hn; cases hn; subst e15; rw [← hv]; exact occB_riscv64 fb sym nr
  rw [if_neg e15] at hn
  by_cases e16 : arch = "s390"
  · rw [if_pos e16] at hn; cases hn; subst e16; rw [← hv]; exact occB_s390 fb sym nr
  rw [if_neg e16] at hn
  by_cases e17 : arch = "sparc"
  · rw [if_pos e17] at hn; cases hn; subst e17; rw [← hv]; exact occB_sparc fb sym nr
  rw [if_neg e17] at hn
  by_cases e18 : arch = "x86_64"
  · rw [if_pos e18] at hn; cases hn; subst e18; rw [← hv]; exact occB_x8664 fb sym nr
  rw [if_neg e18] at hn
  exact Option.noConfusion hn

/-! ### Emitter helper lemmas -/

/-- A successful `print_syscall_def` writes exactly the formatted
`DEF_TEMPLATE` plus the newline `print` appends. -/
theorem print_def_eq {sym : String} {tables : List (String × Table)}
    {out : String} (h : print_syscall_def sym tables = some out) :
    out = defTemplate sym (nrLit tables sym) ++ "\n" := by
  unfold print_syscall_def at h
  split_ifs at h
  cases h; rfl

/-- A successful `print_syscall_def` presupposes every architecture the
template reads is present in the tables. -/
theorem print_ok_present {sym : String} {tables : List (String × Table)}
    {out : String} (h : print_syscall_def sym tables = some out) :
    ∀ a ∈ requiredArchs, (dictGet? tables a).isSome := by
  unfold print_syscall_def at h
  split_ifs at h with hg
  exact fun a ha => List.all_eq_true.mp hg a ha

/-- The literal placed in an architecture's slot when its table holds the
symbol is exactly the decimal rendering of the parsed number. -/
theorem nrLit_of_found {tables : List (String × Table)} {arch : String}
    {t : Table} {sym : String} {n : Int} (ht : dictGet? tables arch = some t)
    (hn : dictGet? t sym = some n) : nrLit tables sym arch = toString n := by
  simp [nrLit, archTable, dictGetD, ht, hn]

/-- The literal placed in an architecture's slot when its table lacks the
symbol is the sentinel `-1`. -/
theorem nrLit_of_absent {tables : List (String × Table)} {arch : String}
    {t : Table} {sym : String} (ht : dictGet? tables arch = some t)
    (hn : dictGet? t sym = none) : nrLit tables sym arch = "-1" := by
  simp [nrLit, archTable, dictGetD, ht, hn]
  rfl

/-- Occurrence in the formatted `DEF_TEMPLATE_B` lifts to the full emitted
block (with the trailing newline `print` appends). -/
theorem occurs_block {sym n : String} {nr : String → String}
    (h : sOccurs n (defTemplateB (warnLine sym) sym nr)) :
    sOccurs n (defTemplate sym nr ++ "\n") := by
  unfold defTemplate
  exact sOccurs_append_left _ (sOccurs_append_left _ (sOccurs_append_right _ h))

/-- The `assert_cc` reconciliation chunk occurs in every emitted block. -/
theorem occurs_block_assert (sym : String) (nr : String → String) :
    sOccurs (cAssertChunk sym) (defTemplate sym nr ++ "\n") := by
  unfold defTemplate defTemplateC
  exact sOccurs_append_left _ (sOccurs_append_right _
    (sOccurs_append_right _ (sOcc_head _ _)))

/-- The fallback-warning chunk occurs in every emitted block. -/
theorem occurs_block_fallback (sym : String) (nr : String → String) :
    sOccurs (bFallbackChunk (warnLine sym)) (defTemplate sym nr ++ "\n") :=
  occurs_block (occB_fallback (warnLine sym) sym nr)

/-- `defTemplateB` only reads `nr` at the architecture keys in
`requiredArchs`. -/
theorem defTemplateB_congr (fb sym : String) {f g : String → String}
    (h : ∀ a ∈ requiredArchs, f a = g a) :
    defTemplateB fb sym f = defTemplateB fb sym g := by
  unfold defTemplateB
  rw [h "arm64" (by decide), h "alpha" (by decide), h "arc" (by decide),
    h "arm" (by decide), h "i386" (by decide), h "ia64" (by decide),
    h "loongarch64" (by decide), h "m68k" (by decide), h "mipso32" (by decide),
    h "mips64n32" (by decide), h "mips64" (by decide), h "parisc" (by decide),
    h "powerpc" (by decide), h "riscv32" (by decide), h "riscv64" (by decide),
    h "s390" (by decide), h "sparc" (by decide), h "x86_64" (by decide)]

/-- `defTemplate` only reads `nr` at the architecture keys in
`requiredArchs`. -/
theorem defTemplate_congr (sym : String) {f g : String → String}
    (h : ∀ a ∈ requiredArchs, f a = g a) :
    defTemplate sym f = defTemplate sym g := by
  unfold defTemplate
  rw [defTemplateB_congr (warnLine sym) sym h]

/-! ### Loader lemmas -/

/-- `badSecondTok` matches its boolean form. -/
theorem badSecondTok_iff (l : String) : badSecondTok l ↔ badSecondTokB l = true := by
  constructor
  · rintro ⟨a, b, rest, hsp, hb⟩
    unfold badSecondTokB
    rw [hsp]
    simp [hb]
  · intro h
    unfold badSecondTokB at h
    cases hs : pySplitWS l with
    | nil => rw [hs] at h; cases h
    | cons a tl =>
      cases tl with
      | nil => rw [hs] at h; cases h
      | cons b rest =>
        rw [hs] at h
        exact ⟨a, b, rest, hs, Option.isNone_iff_eq_none.mp h⟩

/-- A line the loader chokes on makes its `parseLine` step fail. -/
theorem parseLine_none_of_bad {line : String} (h : badSecondTok line) :
    parseLine line = none := by
  obtain ⟨a, b, rest, hs, hb⟩ := h
  unfold parseLine
  rw [hs]
  simp [hb]

/-- One bad line anywhere makes the whole table parse fail: nothing is
skipped, nothing is recovered. -/
theorem parse_table_none {lines : List String} (h : ∃ l ∈ lines, badSecondTok l) :
    parse_syscall_table lines = none := by
  induction lines with
  | nil => obtain ⟨l, hl, _⟩ := h; cases hl
  | cons x xs ih =>
    obtain ⟨l, hl, hbad⟩ := h
    unfold parse_syscall_table
    rcases List.mem_cons.mp hl with he | hm
    · subst he
      rw [parseLine_none_of_bad hbad]
    · have hres := ih ⟨l, hm, hbad⟩
      cases hpl : parseLine x with
      | none => rfl
      | some o =>
        cases o with
        | none => exact hres
        | some p => rw [hres]; rfl

/-- A missing file or a bad line in any table file makes the whole
multi-table parse fail. -/
theorem parse_tables_none {fsys : String → Option (List String)}
    {files : List String}
    (h : ∃ fn ∈ files,
      fsys fn = none ∨ ∃ lines, fsys fn = some lines ∧ ∃ l ∈ lines, badSecondTok l) :
    parse_syscall_tables fsys files = none := by
  induction files with
  | nil => obtain ⟨fn, hfn, _⟩ := h; cases hfn
  | cons x xs ih =>
    obtain ⟨fn, hfn, hbad⟩ := h
    unfold parse_syscall_tables
    rcases List.mem_cons.mp hfn with he | hm
    · subst he
      have hb : (fsys fn).bind parse_syscall_table = none := by
        rcases hbad with h0 | ⟨lines, hl, hb⟩
        · rw [h0]; rfl
        · rw [hl]
          exact parse_table_none hb
      rw [hb]
    · have hres := ih ⟨fn, hm, hbad⟩
      cases hb : (fsys x).bind parse_syscall_table with
      | none => rfl
      | some t => rw [hres]; rfl

/-- On a file whose every line is clean, the loader computes exactly the
spec's table: qualifying lines in order, short lines contributing nothing. -/
theorem parse_table_good {lines : List String} (h : goodLines lines) :
    parse_syscall_table lines = some (specLoaderTable lines) := by
  induction lines with
  | nil => rfl
  | cons x xs ih =>
    have hx : ¬ badSecondTok x := h x (List.mem_cons_self x xs)
    have hxs : goodLines xs := fun l hl => h l (List.mem_cons_of_mem x hl)
    unfold parse_syscall_table
    cases hsp : pySplitWS x with
    | nil =>
      have h1 : parseLine x = some none := by unfold parseLine; rw [hsp]
      have h2 : specLoaderEntry x = none := by unfold specLoaderEntry; rw [hsp]
      rw [h1, ih hxs]
      unfold specLoaderTable
      rw [List.filterMap_cons, h2]
    | cons a tl =>
      cases tl with
      | nil =>
        have h1 : parseLine x = some none := by unfold parseLine; rw [hsp]
        have h2 : specLoaderEntry x = none := by unfold specLoaderEntry; rw [hsp]
        rw [h1, ih hxs]
        unfold specLoaderTable
        rw [List.filterMap_cons, h2]
      | cons b rest =>
        cases hpi : pyint? b with
        | none => exact absurd ⟨a, b, rest, hsp, hpi⟩ hx
        | some n =>
          have h1 : parseLine x = some (some (a, n)) := by
            unfold parseLine; rw [hsp]; simp [hpi]
          have h2 : specLoaderEntry x = some (a, n) := by
            unfold specLoaderEntry; rw [hsp]; simp [hpi]
          rw [h1, ih hxs]
          unfold specLoaderTable
          rw [List.filterMap_cons, h2]
          rfl

/-- On clean inputs, the multi-table parse computes exactly the spec's
mapping: each file contributes its architecture key and spec table, in
order. -/
theorem parse_tables_good {fsys : String → Option (List String)}
    {files : List String}
    (h : ∀ fn ∈ files, ∃ lines, fsys fn = some lines ∧ goodLines lines) :
    parse_syscall_tables fsys files =
      some (files.map (fun fn => (archOf fn, specLoaderTable ((fsys fn).getD [])))) := by
  induction files with
  | nil => rfl
  | cons x xs ih =>
    obtain ⟨lines, hl, hg⟩ := h x (List.mem_cons_self x xs)
    have hx : (fsys x).bind parse_syscall_table = some (specLoaderTable lines) := by
      rw [hl]
      exact parse_table_good hg
    unfold parse_syscall_tables
    rw [hx, ih (fun fn hfn => h fn (List.mem_cons_of_mem x hfn))]
    rw [List.map_cons, hl]
    rfl

/-- A successful multi-table parse presupposes every named file opened and
parsed. -/
theorem parse_tables_mem_ok {fsys : String → Option (List String)} :
    ∀ {files : List String} {res : List (String × Table)},
      parse_syscall_tables fsys files = some res →
      ∀ fn ∈ files, ∃ t, (fsys fn).bind parse_syscall_table = some t := by
  intro files
  induction files with
  | nil => intro res _ fn hfn; cases hfn
  | cons x xs ih =>
    intro res h fn hfn
    unfold parse_syscall_tables at h
    cases hb : (fsys x).bind parse_syscall_table with
    | none => rw [hb] at h; cases h
    | some t =>
      rw [hb] at h
      rcases List.mem_cons.mp hfn with he | hm
      · subst he; exact ⟨t, hb⟩
      · cases hr : parse_syscall_tables fsys xs with
        | none => rw [hr] at h; cases h
        | some r => exact ih hr fn hm

/-- Looking an architecture up in the parsed mapping finds the table of the
LAST input file deriving that architecture key: a later file replaces an
earlier one with the same key. -/
theorem tables_last_wins {fsys : String → Option (List String)} :
    ∀ {files : List String} {res : List (String × Table)} {arch : String},
      parse_syscall_tables fsys files = some res →
      dictGet? res arch =
        (files.reverse.find? (fun fn => archOf fn = arch)).bind
          (fun fn => (fsys fn).bind parse_syscall_table) := by
  intro files
  induction files with
  | nil => intro res arch h; cases h; rfl
  | cons x xs ih =>
    intro res arch h
    unfold parse_syscall_tables at h
    cases hb : (fsys x).bind parse_syscall_table with
    | none => rw [hb] at h; cases h
    | some t =>
      rw [hb] at h
      cases hr : parse_syscall_tables fsys xs with
      | none => rw [hr] at h; cases h
      | some r =>
        rw [hr] at h
        cases h
        have hIH := @ih r arch hr
        rw [List.reverse_cons, List.find?_append]
        unfold dictGet?
        rw [hIH]
        cases hf : xs.reverse.find? (fun fn => archOf fn = arch) with
        | some fnp =>
          have hmem : fnp ∈ xs := by
            have := List.mem_of_find?_eq_some hf
            exact List.mem_reverse.mp this
          obtain ⟨tp, htp⟩ := parse_tables_mem_ok hr fnp hmem
          simp [Option.or, htp]
        | none =>
          by_cases hax : archOf x = arch
          · simp [hax, hb]
          · simp [hax]

/-! ## The claims -/

/-- Claim C1: for every syscall symbol and every architecture whose table
does not contain it, the generated conditional block emits the sentinel `-1`
in that architecture's branch; for a symbol absent from every architecture
table, every architectural slot of its block carries `-1`; and the emitted
downstream `DEF_TEMPLATE_C` logic never defines `__NR_x` from a negative
`systemd_NR_x`, so `-1` is never treated as a valid syscall number. -/
theorem claim1_sentinel_default {tables : List (String × Table)}
    {sym out : String} (hp : print_syscall_def sym tables = some out) :
    (∀ arch t b, dictGet? tables arch = some t → dictGet? t sym = none →
      archNeedle arch sym "-1" = some b → sOccurs b out) ∧
    ((∀ a ∈ requiredArchs, dictGet? (archTable tables a) sym = none) →
      out = defTemplate sym (fun _ => "-1") ++ "\n") ∧
    (∀ nrOpt : Option Int, ∀ w : Int, w < 0 →
      templateCOutcome nrOpt (some w) = templateCOutcome nrOpt none) := by
  refine ⟨?_, ?_, ?_⟩
  · intro arch t b ht hnone hb
    rw [print_def_eq hp]
    exact occurs_block (archNeedle_occurs _ _ _ _ _ _ hb (nrLit_of_absent ht hnone))
  · intro habs
    rw [print_def_eq hp]
    have he : defTemplate sym (nrLit tables sym) = defTemplate sym (fun _ => "-1") := by
      apply defTemplate_congr
      intro a ha
      obtain ⟨t, ht⟩ := Option.isSome_iff_exists.mp (print_ok_present hp a ha)
      have h2 := habs a ha
      unfold archTable at h2
      rw [ht] at h2
      simp only [Option.getD_some] at h2
      exact nrLit_of_absent ht h2
    rw [he]
  · intro nrOpt w hw
    have hwn : ¬ (0 ≤ w) := not_le.mpr hw
    cases nrOpt <;> simp [templateCOutcome, templateCFallback, hwn]

set_option maxHeartbeats 1000000 in
/-- Witness for C1 at a concrete input: with every architecture mapping only
`read`, the block for the absent `openat2` carries `-1` in the alpha
branch. -/
theorem claim1_witness :
    sOccurs (bAlpha "openat2" "-1")
      (( print_syscall_def "openat2" (wTables "read" 0)).getD "") :=
  (@claim1_sentinel_default (wTables "read" 0) "openat2"
      (( print_syscall_def "openat2" (wTables "read" 0)).getD "") rfl).1
    "alpha" [("read", 0)] (bAlpha "openat2" "-1") (by decide) (by decide) rfl

/-- Claim C2: for every syscall symbol present in an architecture's parsed
table, the literal emitted in that architecture's branch equals the parsed
integer exactly (rendered in decimal). -/
theorem claim2_present_literal {tables : List (String × Table)}
    {arch : String} {t : Table} {sym : String} {n : Int} {out b : String}
    (ht : dictGet? tables arch = some t) (hn : dictGet? t sym = some n)
    (hp : print_syscall_def sym tables = some out)
    (hb : archNeedle arch sym (toString n) = some b) : sOccurs b out := by
  rw [print_def_eq hp]
  exact occurs_block (archNeedle_occurs _ _ _ _ _ _ hb (nrLit_of_found ht hn))

set_option maxHeartbeats 1000000 in
/-- Witness for C2 at a concrete input: with every architecture mapping
`openat2` to 437, the riscv32 sub-branch carries the literal `437`. -/
theorem claim2_witness :
    sOccurs (bRiscv32 "openat2" "437")
      (( print_syscall_def "openat2" (wTables "openat2" 437)).getD "") :=
  @claim2_present_literal (wTables "openat2" 437) "riscv32" [("openat2", 437)]
    "openat2" 437 (( print_syscall_def "openat2" (wTables "openat2" 437)).getD "")
    (bRiscv32 "openat2" "437") (by decide) (by decide) rfl rfl

/-- Claim C3: the generator is deterministic — two runs over the same table
files (same contents, same order) and the same fixed symbol list produce
byte-identical output (and identical exit status), whatever the output file
is named. -/
theorem claim3_deterministic {fsys1 fsys2 : String → Option (List String)}
    {o1 o2 : String} {files1 files2 : List String}
    (hf : ∀ fn, fsys1 fn = fsys2 fn) (hfiles : files1 = files2) :
    runMain fsys1 o1 files1 = runMain fsys2 o2 files2 := by
  have he : fsys1 = fsys2 := funext hf
  subst he
  subst hfiles
  rfl

/-- Witness for C3 at a concrete input. -/
theorem claim3_witness :
    runMain wFsys "out.h" ["syscalls-alpha.txt"] =
      runMain wFsys "elsewhere.h" ["syscalls-alpha.txt"] :=
  claim3_deterministic (fun _ => rfl) rfl

/-- Claim C4: every failure is fatal and unrecovered — a missing table file,
or any line with at least two tokens whose second token is not a valid
integer, makes the whole parse fail (no line is skipped, no partial
recovery) and the process exit non-zero. -/
theorem claim4_failures_fatal {fsys : String → Option (List String)}
    {outFile : String} {archFiles : List String}
    (h : ∃ fn ∈ archFiles,
      fsys fn = none ∨ ∃ lines, fsys fn = some lines ∧ ∃ l ∈ lines, badSecondTok l) :
    parse_syscall_tables fsys archFiles = none ∧
      (runMain fsys outFile archFiles).exitOk = false := by
  have hp := parse_tables_none h
  refine ⟨hp, ?_⟩
  unfold runMain
  rw [hp]

/-- Witness for C4 at a concrete input: a table line `read zero`. -/
theorem claim4_witness :
    parse_syscall_tables wFsysBad ["syscalls-alpha.txt"] = none ∧
      (runMain wFsysBad "out.h" ["syscalls-alpha.txt"]).exitOk = false :=
  claim4_failures_fatal
    ⟨"syscalls-alpha.txt", by simp,
      Or.inr ⟨["read zero"], rfl,
        ⟨"read zero", by simp, (badSecondTok_iff "read zero").mpr (by decide)⟩⟩⟩

/-- Claim C5: the loader considers exactly the lines with at least two
whitespace-separated tokens — first token the symbol, second token the
parsed integer — lines with fewer tokens contribute nothing, and the overall
result maps each filename-derived architecture key to its table. -/
theorem claim5_loader_table {fsys : String → Option (List String)}
    {files : List String}
    (h : ∀ fn ∈ files, ∃ lines, fsys fn = some lines ∧ goodLines lines) :
    parse_syscall_tables fsys files =
      some (files.map (fun fn => (archOf fn, specLoaderTable ((fsys fn).getD [])))) :=
  parse_tables_good h

/-- Witness for C5 at a concrete input. -/
theorem claim5_witness :
    parse_syscall_tables wFsys ["syscalls-alpha.txt"] =
      some [("alpha", [("read", 0), ("openat2", 437)])] := by
  have h := @claim5_loader_table wFsys ["syscalls-alpha.txt"]
    (by
      intro fn hfn
      rw [List.mem_singleton] at hfn
      subst hfn
      refine ⟨["read 0", "openat2 437"], rfl, ?_⟩
      intro l hl hbad
      rw [badSecondTok_iff] at hbad
      rcases List.mem_cons.mp hl with he | hm
      · subst he; exact absurd hbad (by decide)
      · rw [List.mem_singleton] at hm
        subst hm; exact absurd hbad (by decide))
  exact h.trans (by decide)

/-- Claim C6: when one architecture's table maps `X` to 10 and a different
architecture's table maps `X` to 20, the emitted block for `X` carries the
literal `10` under the first architecture's branch and `20` under the
second's. -/
theorem claim6_two_arch_values {tables : List (String × Table)}
    {archA archB : String} {tA tB : Table} {sym out bA bB : String}
    (_hne : archA ≠ archB)
    (hA : dictGet? tables archA = some tA) (hB : dictGet? tables archB = some tB)
    (h10 : dictGet? tA sym = some 10) (h20 : dictGet? tB sym = some 20)
    (hp : print_syscall_def sym tables = some out)
    (hbA : archNeedle archA sym "10" = some bA)
    (hbB : archNeedle archB sym "20" = some bB) :
    sOccurs bA out ∧ sOccurs bB out := by
  constructor
  · rw [print_def_eq hp]
    exact occurs_block (archNeedle_occurs _ _ _ _ _ _ hbA (nrLit_of_found hA h10))
  · rw [print_def_eq hp]
    exact occurs_block (archNeedle_occurs _ _ _ _ _ _ hbB (nrLit_of_found hB h20))

set_option maxHeartbeats 1000000 in
/-- Witness for C6 at a concrete input: `alpha` maps `X` to 10, `sparc` maps
`X` to 20. -/
theorem claim6_witness :
    sOccurs (bAlpha "X" "10") (( print_syscall_def "X" wTablesTwo).getD "") ∧
      sOccurs (bSparc "X" "20") (( print_syscall_def "X" wTablesTwo).getD "") :=
  @claim6_two_arch_values wTablesTwo "alpha" "sparc" [("X", 10)] [("X", 20)]
    "X" (( print_syscall_def "X" wTablesTwo).getD "") (bAlpha "X" "10")
    (bSparc "X" "20")
    (by decide) (by decide) (by decide) (by decide) (by decide) rfl rfl rfl

/-- Claim C7: every emitted block contains the static assertion
`assert_cc(__NR_x == systemd_NR_x)` inside a conditional, and that
conditional is reached exactly when a pre-existing non-negative system
definition `__NR_x` and a generated `systemd_NR_x` both exist. -/
theorem claim7_assert_reconciliation {sym : String}
    {tables : List (String × Table)} {out : String}
    (hp : print_syscall_def sym tables = some out) :
    sOccurs ("#    if defined systemd_NR_" ++ sym ++ "\nassert_cc(__NR_" ++
      sym ++ " == systemd_NR_" ++ sym ++ ");\n#    endif\n") out ∧
    (∀ nr snr : Option Int,
      templateCAssertActive nr snr = true ↔
        ((∃ v, nr = some v ∧ 0 ≤ v) ∧ snr ≠ none)) := by
  constructor
  · rw [print_def_eq hp]
    have hflat : cAssertChunk sym =
        "#    if defined systemd_NR_" ++ sym ++ "\nassert_cc(__NR_" ++
          sym ++ " == systemd_NR_" ++ sym ++ ");\n#    endif\n" := by
      simp only [cAssertChunk, String.append_assoc]
      rfl
    rw [← hflat]
    exact occurs_block_assert sym _
  · intro nr snr
    cases nr with
    | none => simp [templateCAssertActive]
    | some v =>
      cases snr with
      | none => simp [templateCAssertActive]
      | some w => simp [templateCAssertActive]

set_option maxHeartbeats 1000000 in
/-- Witness for C7 at a concrete input. -/
theorem claim7_witness :
    sOccurs ("#    if defined systemd_NR_" ++ "openat2" ++ "\nassert_cc(__NR_" ++
        "openat2" ++ " == systemd_NR_" ++ "openat2" ++ ");\n#    endif\n")
      (( print_syscall_def "openat2" (wTables "openat2" 437)).getD "") ∧
    (∀ nr snr : Option Int,
      templateCAssertActive nr snr = true ↔
        ((∃ v, nr = some v ∧ 0 ≤ v) ∧ snr ≠ none)) :=
  @claim7_assert_reconciliation "openat2" (wTables "openat2" 437)
    (( print_syscall_def "openat2" (wTables "openat2" 437)).getD "") rfl

/-- Claim C8: every emitted block ends its architecture chain with a
fallback branch that, when no recognized architecture macro matched (and
`missing_arch_template` is not defined), emits a compile-time warning naming
the symbol as having an unknown syscall number. -/
theorem claim8_fallback_warning {sym : String}
    {tables : List (String × Table)} {out : String}
    (hp : print_syscall_def sym tables = some out) :
    sOccurs ("#  elif !defined(missing_arch_template)\n#    warning \"" ++ sym ++
      "() syscall number is unknown for your architecture\"\n#  endif\n") out := by
  rw [print_def_eq hp]
  have hflat : bFallbackChunk (warnLine sym) =
      "#  elif !defined(missing_arch_template)\n#    warning \"" ++ sym ++
        "() syscall number is unknown for your architecture\"\n#  endif\n" := by
    simp only [bFallbackChunk, warnLine, String.append_assoc]
    rfl
  rw [← hflat]
  exact occurs_block_fallback sym _

set_option maxHeartbeats 1000000 in
/-- Witness for C8 at a concrete input. -/
theorem claim8_witness :
    sOccurs ("#  elif !defined(missing_arch_template)\n#    warning \"" ++
        "openat2" ++ "() syscall number is unknown for your architecture\"\n#  endif\n")
      (( print_syscall_def "openat2" (wTables "openat2" 437)).getD "") :=
  @claim8_fallback_warning "openat2" (wTables "openat2" 437)
    (( print_syscall_def "openat2" (wTables "openat2" 437)).getD "") rfl

/-- Claim C9: the architecture key of a table filename is the part after the
last dash minus the four-character extension (`syscalls-x86_64.txt` yields
`x86_64`), and when two filenames derive the same key, the mapping resolves
to the table of the later file: looking a key up finds the LAST file that
derives it. -/
theorem claim9_arch_key_last_wins {fsys : String → Option (List String)}
    {files : List String} {res : List (String × Table)} {arch : String}
    (hp : parse_syscall_tables fsys files = some res) :
    archOf "syscalls-x86_64.txt" = "x86_64" ∧
    dictGet? res arch =
      (files.reverse.find? (fun fn => archOf fn = arch)).bind
        (fun fn => (fsys fn).bind parse_syscall_table) :=
  ⟨by decide, tables_last_wins hp⟩

/-- Witness for C9 at a concrete input: `a-x.txt` and `b-x.txt` both derive
key `x`; the lookup resolves to the later file's table. -/
theorem claim9_witness :
    archOf "syscalls-x86_64.txt" = "x86_64" ∧
    dictGet? [("x", [("read", 0)]), ("x", [("read", 1)])] "x" =
      ((["a-x.txt", "b-x.txt"].reverse.find? (fun fn => archOf fn = "x")).bind
        (fun fn => (wFsysDup fn).bind parse_syscall_table)) :=
  claim9_arch_key_last_wins (by decide)

/-- Claim C10: the output file is created (or truncated) before any table is
parsed, so on every input whose parse fails the process dies leaving the
output file in existence but empty — prior contents are not preserved. -/
theorem claim10_output_truncated_on_error {fsys : String → Option (List String)}
    {outFile : String} {archFiles : List String}
    (h : parse_syscall_tables fsys archFiles = none) :
    runMain fsys outFile archFiles = ⟨some "", false⟩ := by
  unfold runMain
  rw [h]

/-- Witness for C10 at a concrete input: a missing table file. -/
theorem claim10_witness :
    runMain (fun _ => none) "out.h" ["syscalls-alpha.txt"] = ⟨some "", false⟩ :=
  claim10_output_truncated_on_error rfl

end MissingSyscalls
